import Mathlib

/-!
Verification of the attendance-evidence pipeline and reconciliation state
machine of the Attendance_Impulse repository.

The Python source is shallowly embedded:
* `datetime` values are modelled as integer minutes since an epoch; the
  calendar date of a datetime is its floor-division by 1440 and the
  time-of-day its remainder.
* SQLAlchemy rows become Lean structures; nullable columns become `Option`.
* The per-employee database slice is a `List Attendance`.
* Library calls with no branching logic of their own (OCR, regex search,
  `strptime`, geodesic distance, email delivery) are abstracted as explicit
  inputs; every branch and assignment of the repository code is kept.
-/

/-- Minutes in a day. -/
def minutesPerDay : Int := 1440

/-- Calendar date (day index) of a datetime given in minutes, as in
`datetime.date()`. -/
def dateOf (t : Int) : Int := t / minutesPerDay

/-- Time of day in minutes, as in `datetime.time()`. -/
def timeOfDay (t : Int) : Int := t % minutesPerDay

/-- Zero-padded two-digit rendering used by `f"{minutes:02d}"`. -/
def pad2 (n : Int) : String :=
  if n < 10 then "0" ++ toString n else toString n

/-- models/attendance.py: the `Attendance` row.  `date` is a day index,
times are minutes since the epoch, coordinates are rationals. -/
structure Attendance where
  employee_id : Nat
  date : Int
  in_time : Option Int
  in_photo : Option String
  in_latitude : Option ℚ
  in_longitude : Option ℚ
  in_address : Option String
  out_time : Option Int
  out_photo : Option String
  out_latitude : Option ℚ
  out_longitude : Option ℚ
  out_address : Option String
  site_id : Option Nat
  status : String
  working_hours : Option String
  pending_approval : Bool
  pending_type : Option String
  pending_latitude : Option ℚ
  pending_longitude : Option ℚ
  pending_address : Option String
  pending_time : Option Int
  pending_photo : Option String
  deriving DecidableEq, Repr

/-- models/attendance.py: the `AttendanceApproval` row. -/
structure AttendanceApproval where
  employee_id : Nat
  attendance_id : Option Nat
  date : Int
  attendance_type : String
  photo : Option String
  latitude : ℚ
  longitude : ℚ
  address : Option String
  time : Int
  status : String
  remarks : Option String
  approved_at : Option Int
  approved_by : Option Nat
  deriving DecidableEq, Repr

/-- `Attendance(employee_id=eid, date=d)` with the column defaults of
models/attendance.py (status defaults to "Absent", pending_approval to
False, everything nullable to None). -/
def newAttendance (eid : Nat) (d : Int) : Attendance :=
  { employee_id := eid
    date := d
    in_time := none, in_photo := none, in_latitude := none
    in_longitude := none, in_address := none
    out_time := none, out_photo := none, out_latitude := none
    out_longitude := none, out_address := none
    site_id := none
    status := "Absent"
    working_hours := none
    pending_approval := false
    pending_type := none, pending_latitude := none, pending_longitude := none
    pending_address := none, pending_time := none, pending_photo := none }

/-- employee_routes.py `determine_attendance_status`: valid IN is a
time-of-day between 07:45 (465 min) and 08:15 (495 min); valid OUT is at or
after 18:00 (1080 min). -/
def determine_attendance_status (in_t out_t : Option Int) : String :=
  if in_t = none ∧ out_t = none then "Absent"
  else
    let valid_in :=
      match in_t with
      | some t => decide (465 ≤ timeOfDay t ∧ timeOfDay t ≤ 495)
      | none => false
    let valid_out :=
      match out_t with
      | some t => decide (1080 ≤ timeOfDay t)
      | none => false
    if valid_in && valid_out then "Full Day"
    else if in_t.isSome ∨ out_t.isSome then "Half Day"
    else "Absent"

/-- employee_routes.py `calculate_working_hours`: "0:00" when either
endpoint is missing, else `H:MM` of the (floored) duration. -/
def calculate_working_hours (in_t out_t : Option Int) : String :=
  match in_t, out_t with
  | some i, some o =>
      let dur := o - i
      toString (dur / 60) ++ ":" ++ pad2 (dur % 60)
  | _, _ => "0:00"

/-- The committed outcome of the out-of-range branch of
employee_routes.py `process_attendance` (the `else` of step 6). -/
structure CommitResult where
  accepted : Bool
  message : String
  attendance : Attendance
  approval : AttendanceApproval
  deriving Repr

/-- employee_routes.py `process_attendance`, lines 641-682: the resolved
location is out of range of every candidate site.  An `AttendanceApproval`
row is created with status "Pending", the record's pending side-channel is
populated (`pending_photo` is assigned None: photos are not stored), both
are committed, and only then is the admin notification email attempted;
`emailOk` is the boolean outcome of `send_admin_approval_email`.  The
human-readable fragments `formattedTime` and `distanceStr` stand for the
already-formatted time and distance interpolations of the f-strings. -/
def process_out_of_range (emp_id : Nat) (att : Attendance)
    (attendance_type : String) (lat lon : ℚ) (address : String)
    (current_time : Int) (today : Int) (formattedTime distanceStr : String)
    (emailOk : Bool) : CommitResult :=
  let approval : AttendanceApproval :=
    { employee_id := emp_id
      attendance_id := none
      date := today
      attendance_type := attendance_type
      photo := none
      latitude := lat
      longitude := lon
      address := some address
      time := current_time
      status := "Pending"
      remarks := none
      approved_at := none
      approved_by := none }
  let att' : Attendance :=
    { att with
      pending_approval := true
      pending_type := some attendance_type
      pending_latitude := some lat
      pending_longitude := some lon
      pending_address := some address
      pending_time := some current_time
      pending_photo := none }
  -- db.session.commit() happens here, before the email attempt
  if emailOk then
    { accepted := true
      message := "Attendance request sent for admin approval.\n" ++
        "Your location: " ++ address ++ "...\n" ++
        "Time: " ++ formattedTime ++ "\n" ++
        "Reason: Outside site range (" ++ distanceStr ++
        "km from nearest site)\nAdmin will review and approve if valid."
      attendance := att'
      approval := approval }
  else
    { accepted := false
      message := "Failed to send approval request to admin. Please contact support."
      attendance := att'
      approval := approval }

/-- admin_routes.py `approve_attendance`: stamp the approval row, fetch or
create the attendance record for (employee, approval.date), copy the
snapshot into the IN or OUT slot, clear the pending side-channel, recompute
status and working hours. -/
def approve_attendance (approval : AttendanceApproval)
    (att : Option Attendance) (adminId : Nat) (now : Int)
    (remarks : String) : AttendanceApproval × Attendance :=
  let approval' :=
    { approval with
      status := "Approved"
      approved_at := some now
      approved_by := some adminId
      remarks := some remarks }
  let a0 :=
    match att with
    | some a => a
    | none => newAttendance approval.employee_id approval.date
  let a1 :=
    if approval.attendance_type = "in" then
      { a0 with
        in_time := some approval.time
        in_photo := approval.photo
        in_latitude := some approval.latitude
        in_longitude := some approval.longitude
        in_address := approval.address }
    else
      { a0 with
        out_time := some approval.time
        out_photo := approval.photo
        out_latitude := some approval.latitude
        out_longitude := some approval.longitude
        out_address := approval.address }
  let a2 :=
    { a1 with
      pending_approval := false
      pending_type := none
      pending_latitude := none
      pending_longitude := none
      pending_address := none
      pending_time := none
      pending_photo := none }
  let a3 :=
    { a2 with
      status := determine_attendance_status a2.in_time a2.out_time
      working_hours := some (calculate_working_hours a2.in_time a2.out_time) }
  (approval', a3)

/-- admin_routes.py `reject_attendance`: stamp the approval row as
Rejected with the admin, decision time and remarks, then clear the pending
side-channel of the matching attendance record when one exists.  The IN and
OUT slots are never assigned. -/
def reject_attendance (approval : AttendanceApproval)
    (att : Option Attendance) (adminId : Nat) (now : Int)
    (remarks : String) : AttendanceApproval × Option Attendance :=
  let approval' :=
    { approval with
      status := "Rejected"
      approved_at := some now
      approved_by := some adminId
      remarks := some remarks }
  let att' := att.map (fun a =>
    { a with
      pending_approval := false
      pending_type := none
      pending_latitude := none
      pending_longitude := none
      pending_address := none
      pending_time := none
      pending_photo := none })
  (approval', att')

/-- employee_routes.py `cleanup_incomplete_attendance`, first loop: every
record dated strictly before today with exactly one of IN/OUT populated is
finalized as "Half Day" with working hours "0:00"; with neither populated
as "Absent"; records with both, and records not in the past, are left
unchanged. -/
def finalizeOld (today : Int) (a : Attendance) : Attendance :=
  if a.date < today then
    if a.in_time.isSome && !a.out_time.isSome then
      { a with status := "Half Day", working_hours := some "0:00" }
    else if a.out_time.isSome && !a.in_time.isSome then
      { a with status := "Half Day", working_hours := some "0:00" }
    else if !a.in_time.isSome && !a.out_time.isSome then
      { a with status := "Absent", working_hours := some "0:00" }
    else a
  else a

/-- employee_routes.py `cleanup_incomplete_attendance`, deletion rules for
the record fetched by `filter_by(date=today).first()`: delete when both
times are empty, or when the stored IN time belongs to a previous calendar
date. -/
def deleteTodayCond (today : Int) (a : Attendance) : Bool :=
  (!a.in_time.isSome && !a.out_time.isSome) ||
    (match a.in_time with
     | some t => decide (dateOf t < today)
     | none => false)

/-- Removes the first record dated today when it satisfies
`deleteTodayCond`; only the first today-dated record is ever examined,
mirroring `.first()`. -/
def removeFirstToday (today : Int) : List Attendance → List Attendance
  | [] => []
  | a :: rest =>
      if a.date = today then
        if deleteTodayCond today a then rest else a :: rest
      else a :: removeFirstToday today rest

/-- employee_routes.py `cleanup_incomplete_attendance` on the employee's
records: finalize every past-dated record, then apply the today-record
deletion rules, then commit. -/
def cleanup_incomplete_attendance (today : Int)
    (records : List Attendance) : List Attendance :=
  removeFirstToday today (records.map (finalizeOld today))

/-- gps_extractor.py `extract_gps_from_text_overlay`, lines 148-157: the
day/month disambiguation of an ambiguous numeric `n1/n2/yyyy` triple,
returning (day, month). -/
def disambiguate_date (a b : Nat) : Nat × Nat :=
  if a > 12 ∧ 1 ≤ b ∧ b ≤ 12 then (a, b)
  else if b > 12 ∧ 1 ≤ a ∧ a ≤ 12 then (b, a)
  else (a, b)

/-- A definition following the words of the specification (for comparison
with `disambiguate_date`): first component exceeding 12 keeps (n1, n2),
second component exceeding 12 swaps to (n2, n1), otherwise day-first. -/
def specDisambiguateDate (a b : Nat) : Nat × Nat :=
  if a > 12 then (a, b)
  else if b > 12 then (b, a)
  else (a, b)

/-- One OCR variant of gps_extractor.py `extract_gps_from_text_overlay`
after cleaning: the coordinate candidates parsed from the variant's text,
one per matching coordinate pattern in pattern order (DMS candidates
already converted to decimal), and the parsed date/time/address matches
when the respective first pattern matched. -/
structure VariantParse where
  gpsCandidates : List (ℚ × ℚ)
  date : Option String
  time : Option String
  address : Option String
  deriving DecidableEq, Repr

/-- The `found` dictionary of `extract_gps_from_text_overlay`. -/
structure Found where
  lat : Option ℚ
  lon : Option ℚ
  date : Option String
  time : Option String
  address : Option String
  deriving DecidableEq, Repr

/-- Range validation of a parsed coordinate pair
(`-90 <= lat <= 90 and -180 <= lon <= 180`). -/
def validPair (p : ℚ × ℚ) : Bool :=
  decide (-90 ≤ p.1 ∧ p.1 ≤ 90 ∧ -180 ≤ p.2 ∧ p.2 ≤ 180)

/-- The inner coordinate-pattern loop of one variant: the first candidate
in pattern order passing range validation wins for that variant (invalid
candidates fall through to the next pattern). -/
def firstValidGps (cands : List (ℚ × ℚ)) : Option (ℚ × ℚ) :=
  cands.find? validPair

/-- The body of the `for label, text in ocr_results.items()` loop for one
variant: an in-range coordinate pair overwrites `found["lat"]`/`["lon"]`,
and a date/time/address match overwrites the corresponding field; fields
with no match in this variant keep their previous value. -/
def scanVariant (f : Found) (v : VariantParse) : Found :=
  let f1 :=
    match firstValidGps v.gpsCandidates with
    | some p => { f with lat := some p.1, lon := some p.2 }
    | none => f
  let f2 := match v.date with
    | some d => { f1 with date := some d }
    | none => f1
  let f3 := match v.time with
    | some t => { f2 with time := some t }
    | none => f2
  match v.address with
  | some ad => { f3 with address := some ad }
  | none => f3

/-- The variant scan of `extract_gps_from_text_overlay`: fold the per-
variant body over the OCR variants in iteration order, starting from the
all-None `found` dictionary. -/
def extractOverlay (variants : List VariantParse) : Found :=
  variants.foldl scanVariant
    { lat := none, lon := none, date := none, time := none, address := none }

/-- The `ocr_results` insertion (and hence iteration) order of
`extract_gps_from_text_overlay`: cropped, full, cropped-thresholded,
full-thresholded. -/
def overlayVariantOrder (cropped full croppedTh fullTh : VariantParse) :
    List VariantParse :=
  [cropped, full, croppedTh, fullTh]

/-- A definition following the words of the specification (for comparison
with `overlayVariantOrder`): variants in the order full, lower-crop,
full-thresholded, lower-crop-thresholded. -/
def specC3VariantOrder (cropped full croppedTh fullTh : VariantParse) :
    List VariantParse :=
  [full, cropped, fullTh, croppedTh]

/-- A definition following the words of the specification: the first
variant in the given sequence yielding a range-validated coordinate pair
determines the result. -/
def specC3FirstGps (vs : List VariantParse) : Option (ℚ × ℚ) :=
  vs.findSome? (fun v => firstValidGps v.gpsCandidates)

/-- The value of the last variant in the list for which `g` yields a
result (the overwrite semantics of the variant loop). -/
def lastWinner {α : Type} (g : VariantParse → Option α) :
    List VariantParse → Option α
  | [] => none
  | v :: rest =>
      match lastWinner g rest with
      | some x => some x
      | none => g v

/-- An uploaded photo as the Evidence Resolver sees it: the decoded EXIF
geotag and timestamp (if any), the OCR variant parses of its overlay text,
and the outcome of the `strptime` format-trying loop on a (date, time)
string pair, abstracting the datetime library. -/
structure Photo where
  exifGps : Option (ℚ × ℚ)
  exifDt : Option Int
  overlay : List VariantParse
  strptime : String → String → Option Int

/-- gps_extractor.py `extract_datetime_from_text_overlay`: rerun the
overlay extraction, and when both a date and a time string were found try
the datetime formats; returns (datetime, ok). -/
def extract_datetime_from_text_overlay (p : Photo) : Option Int × Bool :=
  let f := extractOverlay p.overlay
  match f.date, f.time with
  | some ds, some ts =>
      match p.strptime ds ts with
      | some dt => (some dt, true)
      | none => (none, false)
  | _, _ => (none, false)

/-- The result tuple of gps_extractor.py `extract_gps_and_datetime`. -/
structure ExtractResult where
  lat : Option ℚ
  lon : Option ℚ
  dt : Option Int
  address : Option String
  method : Option String
  deriving Repr

/-- gps_extractor.py `extract_gps_and_datetime`: EXIF first; else overlay
OCR; a found coordinate pair with an unreconstructable datetime is
discarded with method "TIME_PARSE_FAILED"; a reconstructed datetime not
dated today is discarded with method "DATE_MISMATCH"; otherwise the
coordinates are injected back into EXIF and returned with method
"OCR+Injected". -/
def extract_gps_and_datetime (p : Photo) (today : Int) : ExtractResult :=
  match p.exifGps with
  | some q =>
      { lat := some q.1, lon := some q.2, dt := p.exifDt
        address := some "", method := some "EXIF" }
  | none =>
      let f := extractOverlay p.overlay
      match f.lat, f.lon with
      | some la, some lo =>
          match extract_datetime_from_text_overlay p with
          | (some dt, true) =>
              if dateOf dt = today then
                { lat := some la, lon := some lo, dt := some dt
                  address := f.address, method := some "OCR+Injected" }
              else
                { lat := none, lon := none, dt := none
                  address := f.address, method := some "DATE_MISMATCH" }
          | _ =>
              { lat := none, lon := none, dt := none
                address := f.address, method := some "TIME_PARSE_FAILED" }
      | _, _ =>
          { lat := none, lon := none, dt := none
            address := none, method := none }

/-- The loop of employee_routes.py `is_within_site_range`, with the
`closest_distance` accumulator (`none` plays `float('inf')`); `dist`
abstracts the geodesic distance from the employee's point to a site,
indexed by position-independent site identifiers. -/
def siteLoop (dist : Nat → ℚ) (radius : ℚ) :
    List Nat → Option ℚ → Bool × Option Nat × Option ℚ
  | [], closest => (false, none, closest)
  | s :: rest, closest =>
      let d := dist s
      let closest' :=
        match closest with
        | none => some d
        | some c => if d < c then some d else some c
      if d ≤ radius then (true, some s, some d)
      else siteLoop dist radius rest closest'

/-- employee_routes.py `is_within_site_range`: scan the sites in order,
tracking the minimum distance; return (True, site, distance) at the first
site within the radius, else (False, None, closest_distance). -/
def is_within_site_range (dist : Nat → ℚ) (sites : List Nat)
    (radius : ℚ) : Bool × Option Nat × Option ℚ :=
  siteLoop dist radius sites none

/-- Round-half-to-even as performed by Python's `round`. -/
def bankerRound (x : ℚ) : ℤ :=
  if Int.fract x = 1 / 2 then
    if Even ⌊x⌋ then ⌊x⌋ else ⌊x⌋ + 1
  else round x

/-- gps_extractor.py `_deg_to_dms_rational`: decimal degrees to the EXIF
rational triple [(d,1),(m,1),(s,100)] of the absolute value, with the
seconds scaled by 100 and rounded. -/
def deg_to_dms_rational (deg : ℚ) : (ℤ × ℤ) × (ℤ × ℤ) × (ℤ × ℤ) :=
  let deg_abs := |deg|
  let d := ⌊deg_abs⌋
  let m := ⌊(deg_abs - d) * 60⌋
  let s := bankerRound ((deg_abs - d - m / 60) * 3600 * 100)
  ((d, 1), (m, 1), (s, 100))

/-- gps_extractor.py `extract_gps_from_exif`, inner `rational_to_float`:
`d + m/60 + s/3600` on the rational components. -/
def rational_to_float (r : (ℤ × ℤ) × (ℤ × ℤ) × (ℤ × ℤ)) : ℚ :=
  (r.1.1 : ℚ) / (r.1.2 : ℚ) + (r.2.1.1 : ℚ) / (r.2.1.2 : ℚ) / 60 +
    (r.2.2.1 : ℚ) / (r.2.2.2 : ℚ) / 3600

/-- The EXIF round trip for one coordinate: `inject_gps_into_exif` writes
the DMS triple of the value with hemisphere reference 'N'/'E' exactly when
the value is nonnegative, and `extract_gps_from_exif` negates the decoded
magnitude exactly when the reference is 'S'/'W'. -/
def exif_roundtrip (deg : ℚ) : ℚ :=
  let v := rational_to_float (deg_to_dms_rational deg)
  if 0 ≤ deg then v else -v

/-- employee_routes.py `attendance_out`: the guard before attendance
processing.  The record for (employee, today) is looked up; when it is
missing or has no IN time the request is flashed away with the
must-mark-IN-first message and no processing happens; otherwise
`process_attendance` (face verification, evidence extraction and record
mutation, abstracted as `process`) runs on the stored records. -/
def attendance_out (records : List Attendance) (empId : Nat) (today : Int)
    (process : List Attendance → Bool × String × List Attendance) :
    Bool × String × List Attendance :=
  match records.find? (fun a => decide (a.employee_id = empId ∧ a.date = today)) with
  | some a =>
      if a.in_time.isSome then process records
      else (false, "You must mark IN attendance before marking OUT attendance.",
        records)
  | none =>
      (false, "You must mark IN attendance before marking OUT attendance.",
        records)

/-! ## Theorems -/

/-- C5: The claim's disambiguation rule ("second component exceeds 12 →
swap") fails on the triple 00/15/2025: the code keeps (0, 15) because the
swap branch additionally requires the first component to lie in 1..12. -/
theorem C5_counterexample :
    disambiguate_date 0 15 = (0, 15) ∧
    specDisambiguateDate 0 15 = (15, 0) ∧
    disambiguate_date 0 15 ≠ specDisambiguateDate 0 15 := by
  decide

/-- C5 (amended): the parsed (day, month) is (n2, n1) exactly when the
second component exceeds 12 AND the first lies in 1..12, and (n1, n2)
otherwise; the three concrete examples of the claim hold. -/
theorem C5_amended (a b : Nat) :
    disambiguate_date a b =
      (if b > 12 ∧ 1 ≤ a ∧ a ≤ 12 then (b, a) else (a, b)) ∧
    disambiguate_date 15 3 = (15, 3) ∧
    disambiguate_date 3 15 = (15, 3) ∧
    disambiguate_date 3 4 = (3, 4) := by
  refine ⟨?_, by decide, by decide, by decide⟩
  by_cases hs : b > 12 ∧ 1 ≤ a ∧ a ≤ 12
  · rw [if_pos hs]
    unfold disambiguate_date
    rw [if_neg (by omega), if_pos hs]
  · rw [if_neg hs]
    unfold disambiguate_date
    by_cases h1 : a > 12 ∧ 1 ≤ b ∧ b ≤ 12
    · rw [if_pos h1]
    · rw [if_neg h1, if_neg hs]

/-- C7: the admin reject transition stamps the approval row as Rejected
with the decider, decision time and remarks, clears the matching record's
entire pending side-channel, and leaves every IN and OUT slot field of the
record unchanged. -/
theorem C7_reject_frame (approval : AttendanceApproval) (a : Attendance)
    (adminId : Nat) (now : Int) (remarks : String) :
    (reject_attendance approval (some a) adminId now remarks).1.status = "Rejected" ∧
    (reject_attendance approval (some a) adminId now remarks).1.approved_by = some adminId ∧
    (reject_attendance approval (some a) adminId now remarks).1.approved_at = some now ∧
    (reject_attendance approval (some a) adminId now remarks).1.remarks = some remarks ∧
    ∃ a', (reject_attendance approval (some a) adminId now remarks).2 = some a' ∧
      a'.pending_approval = false ∧ a'.pending_type = none ∧
      a'.pending_latitude = none ∧ a'.pending_longitude = none ∧
      a'.pending_address = none ∧ a'.pending_time = none ∧
      a'.pending_photo = none ∧
      a'.in_time = a.in_time ∧ a'.in_photo = a.in_photo ∧
      a'.in_latitude = a.in_latitude ∧ a'.in_longitude = a.in_longitude ∧
      a'.in_address = a.in_address ∧
      a'.out_time = a.out_time ∧ a'.out_photo = a.out_photo ∧
      a'.out_latitude = a.out_latitude ∧ a'.out_longitude = a.out_longitude ∧
      a'.out_address = a.out_address := by
  exact ⟨rfl, rfl, rfl, rfl, _, rfl, rfl, rfl, rfl, rfl, rfl, rfl, rfl,
    rfl, rfl, rfl, rfl, rfl, rfl, rfl, rfl, rfl, rfl⟩

/-- C10: when no attendance record for (employee, today) with a populated
IN time exists, the OUT route rejects with the must-mark-IN-first message
and returns the stored records unchanged, without invoking attendance
processing (the result does not depend on `process`). -/
theorem C10_out_requires_in (records : List Attendance) (empId : Nat)
    (today : Int)
    (h : ∀ a ∈ records, a.employee_id = empId → a.date = today → a.in_time = none)
    (process : List Attendance → Bool × String × List Attendance) :
    attendance_out records empId today process =
      (false, "You must mark IN attendance before marking OUT attendance.",
        records) := by
  unfold attendance_out
  cases hf : records.find? (fun a => decide (a.employee_id = empId ∧ a.date = today)) with
  | none => rfl
  | some a =>
      have hmem := List.mem_of_find?_eq_some hf
      have hcond := List.find?_some hf
      simp only [decide_eq_true_eq] at hcond
      have hnone : a.in_time = none := h a hmem hcond.1 hcond.2
      simp [hnone]

/-- C10 witness: an employee with no record at all is turned away
unchanged. -/
theorem C10_witness :
    attendance_out [] 7 3 (fun rs => (true, "processed", rs)) =
      (false, "You must mark IN attendance before marking OUT attendance.",
        []) :=
  C10_out_requires_in [] 7 3 (by simp) (fun rs => (true, "processed", rs))

/-- C1 counterexample: on a concrete out-of-range submission whose admin
notification email fails, the code returns accepted = false, not the
claimed accepted = true. -/
theorem C1_counterexample :
    ¬((process_out_of_range 1 (newAttendance 1 0) "in" 10 20 "addr" 500 0
        "9:01 AM" "5.00" false).accepted = true) := by
  decide

/-- C1 (amended): the committed attendance record (with its populated
pending side-channel) and the created Pending approval row are identical
whether or not the notification email succeeds — email failure never rolls
them back — but the returned accepted flag equals the email outcome
(false, with the failed-to-notify message, when the email fails), rather
than being true regardless. -/
theorem C1_amended (emp_id : Nat) (att : Attendance) (ty : String)
    (lat lon : ℚ) (address : String) (t today : Int)
    (ft ds : String) (emailOk : Bool) :
    (process_out_of_range emp_id att ty lat lon address t today ft ds emailOk).attendance =
      (process_out_of_range emp_id att ty lat lon address t today ft ds true).attendance ∧
    (process_out_of_range emp_id att ty lat lon address t today ft ds emailOk).approval =
      (process_out_of_range emp_id att ty lat lon address t today ft ds true).approval ∧
    (process_out_of_range emp_id att ty lat lon address t today ft ds emailOk).accepted = emailOk ∧
    (process_out_of_range emp_id att ty lat lon address t today ft ds emailOk).attendance.pending_approval = true ∧
    (process_out_of_range emp_id att ty lat lon address t today ft ds emailOk).attendance.pending_type = some ty ∧
    (process_out_of_range emp_id att ty lat lon address t today ft ds emailOk).approval.status = "Pending" ∧
    (process_out_of_range emp_id att ty lat lon address t today ft ds false).message =
      "Failed to send approval request to admin. Please contact support." := by
  cases emailOk <;>
    exact ⟨rfl, rfl, rfl, rfl, rfl, rfl, rfl⟩

/-- The claim's invariant, following the specification's words: the
pending fields are all null, or all populated together with a pendingType
of "in" or "out". -/
def pendingAllNull (a : Attendance) : Prop :=
  a.pending_type = none ∧ a.pending_latitude = none ∧
  a.pending_longitude = none ∧ a.pending_address = none ∧
  a.pending_time = none ∧ a.pending_photo = none

/-- All pending fields populated, with a pendingType of "in" or "out". -/
def pendingAllPopulated (a : Attendance) : Prop :=
  (a.pending_type = some "in" ∨ a.pending_type = some "out") ∧
  a.pending_latitude.isSome = true ∧ a.pending_longitude.isSome = true ∧
  a.pending_address.isSome = true ∧ a.pending_time.isSome = true ∧
  a.pending_photo.isSome = true

/-- The invariant exactly as claimed. -/
def specPendingInvariant (a : Attendance) : Prop :=
  pendingAllNull a ∨ pendingAllPopulated a

/-- The invariant the code actually maintains: the non-photo pending
fields are all-null or all-populated together with a pendingType of "in"
or "out", while pending_photo is always null (photos are never stored). -/
def pendingConsistent (a : Attendance) : Prop :=
  pendingAllNull a ∨
  ((a.pending_type = some "in" ∨ a.pending_type = some "out") ∧
   a.pending_latitude.isSome = true ∧ a.pending_longitude.isSome = true ∧
   a.pending_address.isSome = true ∧ a.pending_time.isSome = true ∧
   a.pending_photo = none)

/-- C2 counterexample: the record committed by a concrete out-of-range
check-in has its pending side-channel populated but pending_photo null
(the code assigns None), so the pending fields are neither all null nor
all populated. -/
theorem C2_counterexample :
    ¬specPendingInvariant
      (process_out_of_range 1 (newAttendance 1 0) "in" 10 20 "addr" 500 0
        "9:01 AM" "5.00" true).attendance := by
  unfold specPendingInvariant pendingAllNull pendingAllPopulated
  decide

/-- C2 (amended): after each committing operation — the out-of-range
submission, admin approve, admin reject, and lazy record creation — the
non-photo pending fields are all-null or all-populated together with a
pendingType of "in" or "out", and pending_photo is always null. -/
theorem C2_amended (emp_id : Nat) (att : Attendance) (ty : String)
    (hty : ty = "in" ∨ ty = "out")
    (lat lon : ℚ) (address : String) (t today : Int) (ft ds : String)
    (emailOk : Bool) (approval : AttendanceApproval)
    (attOpt : Option Attendance) (adminId : Nat) (now : Int)
    (remarks : String) (eid : Nat) (d : Int) :
    pendingConsistent
      (process_out_of_range emp_id att ty lat lon address t today ft ds
        emailOk).attendance ∧
    pendingConsistent (approve_attendance approval attOpt adminId now remarks).2 ∧
    (∀ a' b, (reject_attendance approval (some a') adminId now remarks).2 = some b →
      pendingConsistent b) ∧
    pendingConsistent (newAttendance eid d) := by
  refine ⟨?_, ?_, ?_, ?_⟩
  · refine Or.inr ⟨?_, ?_, ?_, ?_, ?_, ?_⟩ <;>
      first
        | (cases emailOk <;> rfl)
        | (cases emailOk <;>
            simp only [process_out_of_range] <;>
            rcases hty with h | h <;> simp [h])
  · cases attOpt <;>
      exact Or.inl ⟨rfl, rfl, rfl, rfl, rfl, rfl⟩
  · intro a' b hb
    simp only [reject_attendance, Option.map_some'] at hb
    cases hb
    exact Or.inl ⟨rfl, rfl, rfl, rfl, rfl, rfl⟩
  · exact Or.inl ⟨rfl, rfl, rfl, rfl, rfl, rfl⟩

/-- C2 witness: the amended invariant holds on a concrete out-of-range
check-in, approval, rejection and fresh record. -/
theorem C2_witness :
    pendingConsistent
      (process_out_of_range 1 (newAttendance 1 0) "in" 10 20 "addr" 500 0
        "9:01 AM" "5.00" true).attendance ∧
    pendingConsistent
      (approve_attendance
        { employee_id := 1, attendance_id := none, date := 0,
          attendance_type := "in", photo := none, latitude := 10,
          longitude := 20, address := some "addr", time := 500,
          status := "Pending", remarks := none, approved_at := none,
          approved_by := none }
        none 2 600 "no").2 ∧
    (∀ a' b,
      (reject_attendance
        { employee_id := 1, attendance_id := none, date := 0,
          attendance_type := "in", photo := none, latitude := 10,
          longitude := 20, address := some "addr", time := 500,
          status := "Pending", remarks := none, approved_at := none,
          approved_by := none }
        (some a') 2 600 "no").2 = some b → pendingConsistent b) ∧
    pendingConsistent (newAttendance 3 5) :=
  C2_amended 1 (newAttendance 1 0) "in" (Or.inl rfl) 10 20 "addr" 500 0
    "9:01 AM" "5.00" true _ none 2 600 "no" 3 5

/-- The per-variant scan updates `lat` to the variant's first valid
coordinate pair when one exists, else keeps the previous value. -/
theorem scanVariant_lat (f : Found) (v : VariantParse) :
    (scanVariant f v).lat =
      (match firstValidGps v.gpsCandidates with
       | some p => some p.1
       | none => f.lat) := by
  unfold scanVariant
  cases firstValidGps v.gpsCandidates <;>
    cases v.date <;> cases v.time <;> cases v.address <;> simp

/-- As `scanVariant_lat`, for `lon`. -/
theorem scanVariant_lon (f : Found) (v : VariantParse) :
    (scanVariant f v).lon =
      (match firstValidGps v.gpsCandidates with
       | some p => some p.2
       | none => f.lon) := by
  unfold scanVariant
  cases firstValidGps v.gpsCandidates <;>
    cases v.date <;> cases v.time <;> cases v.address <;> simp

/-- As `scanVariant_lat`, for `date`. -/
theorem scanVariant_date (f : Found) (v : VariantParse) :
    (scanVariant f v).date =
      (match v.date with
       | some d => some d
       | none => f.date) := by
  unfold scanVariant
  cases firstValidGps v.gpsCandidates <;>
    cases v.date <;> cases v.time <;> cases v.address <;> simp

/-- As `scanVariant_lat`, for `time`. -/
theorem scanVariant_time (f : Found) (v : VariantParse) :
    (scanVariant f v).time =
      (match v.time with
       | some t => some t
       | none => f.time) := by
  unfold scanVariant
  cases firstValidGps v.gpsCandidates <;>
    cases v.date <;> cases v.time <;> cases v.address <;> simp

/-- As `scanVariant_lat`, for `address`. -/
theorem scanVariant_address (f : Found) (v : VariantParse) :
    (scanVariant f v).address =
      (match v.address with
       | some a_ => some a_
       | none => f.address) := by
  unfold scanVariant
  cases firstValidGps v.gpsCandidates <;>
    cases v.date <;> cases v.time <;> cases v.address <;> simp

/-- Fold characterization of the variant scan: each field of the result
is the value contributed by the last variant that matched it, falling back
to the accumulator. -/
theorem foldl_scanVariant_char (vs : List VariantParse) : ∀ f : Found,
    (vs.foldl scanVariant f).lat =
      (match lastWinner (fun v => firstValidGps v.gpsCandidates) vs with
       | some p => some p.1
       | none => f.lat) ∧
    (vs.foldl scanVariant f).lon =
      (match lastWinner (fun v => firstValidGps v.gpsCandidates) vs with
       | some p => some p.2
       | none => f.lon) ∧
    (vs.foldl scanVariant f).date =
      (match lastWinner (fun v => v.date) vs with
       | some d => some d
       | none => f.date) ∧
    (vs.foldl scanVariant f).time =
      (match lastWinner (fun v => v.time) vs with
       | some t => some t
       | none => f.time) ∧
    (vs.foldl scanVariant f).address =
      (match lastWinner (fun v => v.address) vs with
       | some a_ => some a_
       | none => f.address) := by
  induction vs with
  | nil => intro f; exact ⟨rfl, rfl, rfl, rfl, rfl⟩
  | cons v vs ih =>
      intro f
      obtain ⟨h1, h2, h3, h4, h5⟩ := ih (scanVariant f v)
      simp only [List.foldl_cons]
      refine ⟨?_, ?_, ?_, ?_, ?_⟩
      · rw [h1]
        simp only [lastWinner]
        cases lastWinner (fun v => firstValidGps v.gpsCandidates) vs with
        | some p => rfl
        | none => exact scanVariant_lat f v
      · rw [h2]
        simp only [lastWinner]
        cases lastWinner (fun v => firstValidGps v.gpsCandidates) vs with
        | some p => rfl
        | none => exact scanVariant_lon f v
      · rw [h3]
        simp only [lastWinner]
        cases lastWinner (fun v => v.date) vs with
        | some d => rfl
        | none => exact scanVariant_date f v
      · rw [h4]
        simp only [lastWinner]
        cases lastWinner (fun v => v.time) vs with
        | some t => rfl
        | none => exact scanVariant_time f v
      · rw [h5]
        simp only [lastWinner]
        cases lastWinner (fun v => v.address) vs with
        | some a_ => rfl
        | none => exact scanVariant_address f v

/-- Demo variant: lower-half crop, carrying a valid pair. -/
def vCrop : VariantParse := ⟨[(10, 20)], none, none, none⟩

/-- Demo variant: full image, no coordinate match. -/
def vFull : VariantParse := ⟨[], none, none, none⟩

/-- Demo variant: thresholded lower-half crop, carrying a valid pair. -/
def vCropTh : VariantParse := ⟨[(30, 40)], none, none, none⟩

/-- Demo variant: thresholded full image, no coordinate match. -/
def vFullTh : VariantParse := ⟨[], none, none, none⟩

/-- C3 counterexample: the code iterates the variants as cropped, full,
cropped-thresholded, full-thresholded and lets later matches overwrite
earlier ones, so it returns the thresholded crop's pair (30, 40); the
claim's rule (order full, lower-crop, full-thresholded,
lower-crop-thresholded, first validated pair wins) would return (10, 20). -/
theorem C3_counterexample :
    (extractOverlay (overlayVariantOrder vCrop vFull vCropTh vFullTh)).lat = some 30 ∧
    specC3FirstGps (specC3VariantOrder vCrop vFull vCropTh vFullTh) = some (10, 20) ∧
    (extractOverlay (overlayVariantOrder vCrop vFull vCropTh vFullTh)).lat ≠
      (specC3FirstGps (specC3VariantOrder vCrop vFull vCropTh vFullTh)).map Prod.fst := by
  refine ⟨by decide, by decide, by decide⟩

/-- C3 (amended): the OCR variants are iterated in the order lower-crop,
full, lower-crop-thresholded, full-thresholded, and the LAST variant in
that order yielding a range-validated coordinate pair determines the
returned latitude/longitude; likewise the date, time and address fields
are each taken from the last variant in which they matched. -/
theorem C3_amended (cropped full croppedTh fullTh : VariantParse)
    (vs : List VariantParse) :
    overlayVariantOrder cropped full croppedTh fullTh =
      [cropped, full, croppedTh, fullTh] ∧
    (extractOverlay vs).lat =
      (lastWinner (fun v => firstValidGps v.gpsCandidates) vs).map Prod.fst ∧
    (extractOverlay vs).lon =
      (lastWinner (fun v => firstValidGps v.gpsCandidates) vs).map Prod.snd ∧
    (extractOverlay vs).date = lastWinner (fun v => v.date) vs ∧
    (extractOverlay vs).time = lastWinner (fun v => v.time) vs ∧
    (extractOverlay vs).address = lastWinner (fun v => v.address) vs := by
  obtain ⟨h1, h2, h3, h4, h5⟩ := foldl_scanVariant_char vs
    { lat := none, lon := none, date := none, time := none, address := none }
  refine ⟨rfl, ?_, ?_, ?_, ?_, ?_⟩
  · rw [show extractOverlay vs = vs.foldl scanVariant
      { lat := none, lon := none, date := none, time := none, address := none } from rfl, h1]
    cases lastWinner (fun v => firstValidGps v.gpsCandidates) vs <;> rfl
  · rw [show extractOverlay vs = vs.foldl scanVariant
      { lat := none, lon := none, date := none, time := none, address := none } from rfl, h2]
    cases lastWinner (fun v => firstValidGps v.gpsCandidates) vs <;> rfl
  · rw [show extractOverlay vs = vs.foldl scanVariant
      { lat := none, lon := none, date := none, time := none, address := none } from rfl, h3]
    cases lastWinner (fun v => v.date) vs <;> rfl
  · rw [show extractOverlay vs = vs.foldl scanVariant
      { lat := none, lon := none, date := none, time := none, address := none } from rfl, h4]
    cases lastWinner (fun v => v.time) vs <;> rfl
  · rw [show extractOverlay vs = vs.foldl scanVariant
      { lat := none, lon := none, date := none, time := none, address := none } from rfl, h5]
    cases lastWinner (fun v => v.address) vs <;> rfl

/-- The closest-distance accumulator of `siteLoop` as a standalone fold
over the distances. -/
def accMin : Option ℚ → List ℚ → Option ℚ
  | acc, [] => acc
  | acc, d :: ds =>
      accMin
        (match acc with
         | none => some d
         | some c => if d < c then some d else some c) ds

/-- When every site before `s` is farther than the radius and `s` is
within it, the loop returns at `s` with its distance. -/
theorem siteLoop_found (dist : Nat → ℚ) (radius : ℚ) :
    ∀ (pre : List Nat) (acc : Option ℚ) (s : Nat) (post : List Nat),
      (∀ t ∈ pre, radius < dist t) → dist s ≤ radius →
      siteLoop dist radius (pre ++ s :: post) acc =
        (true, some s, some (dist s)) := by
  intro pre
  induction pre with
  | nil =>
      intro acc s post _ hs
      simp only [List.nil_append, siteLoop]
      rw [if_pos hs]
  | cons t pre ih =>
      intro acc s post hpre hs
      have ht : ¬dist t ≤ radius := not_le.mpr (hpre t (by simp))
      simp only [List.cons_append, siteLoop]
      rw [if_neg ht]
      exact ih _ s post (fun u hu => hpre u (by simp [hu])) hs

/-- When no site is within the radius, the loop returns false, no site,
and the folded minimum distance. -/
theorem siteLoop_none (dist : Nat → ℚ) (radius : ℚ) :
    ∀ (sites : List Nat) (acc : Option ℚ),
      (∀ t ∈ sites, radius < dist t) →
      siteLoop dist radius sites acc =
        (false, none, accMin acc (sites.map dist)) := by
  intro sites
  induction sites with
  | nil => intro acc _; rfl
  | cons s rest ih =>
      intro acc h
      have hs : ¬dist s ≤ radius := not_le.mpr (h s (by simp))
      simp only [siteLoop, List.map_cons, accMin]
      rw [if_neg hs]
      exact ih _ (fun t ht => h t (by simp [ht]))

/-- The accumulator fold computes a minimum of the seed and the list. -/
theorem accMin_some_char :
    ∀ (ds : List ℚ) (c : ℚ),
      ∃ m, accMin (some c) ds = some m ∧ (m = c ∨ m ∈ ds) ∧ m ≤ c ∧
        ∀ d ∈ ds, m ≤ d := by
  intro ds
  induction ds with
  | nil => intro c; exact ⟨c, rfl, Or.inl rfl, le_refl c, by simp⟩
  | cons d ds ih =>
      intro c
      by_cases hd : d < c
      · obtain ⟨m, h1, h2, h3, h4⟩ := ih d
        refine ⟨m, ?_, ?_, ?_, ?_⟩
        · simp only [accMin]
          rw [if_pos hd]
          exact h1
        · refine Or.inr ?_
          rcases h2 with h | h
          · simp [h]
          · simp [h]
        · exact le_trans h3 (le_of_lt hd)
        · intro d' hd'
          rcases List.mem_cons.mp hd' with h | h
          · rw [h]; exact h3
          · exact h4 d' h
      · obtain ⟨m, h1, h2, h3, h4⟩ := ih c
        refine ⟨m, ?_, ?_, ?_, ?_⟩
        · simp only [accMin]
          rw [if_neg hd]
          exact h1
        · rcases h2 with h | h
          · exact Or.inl h
          · exact Or.inr (by simp [h])
        · exact h3
        · intro d' hd'
          rcases List.mem_cons.mp hd' with h | h
          · rw [h]; exact le_trans h3 (not_lt.mp hd)
          · exact h4 d' h

/-- C6 counterexample: one site 5 km away with radius 2 km.  The claim
says the false branch returns the true nearest site; the code returns
None as the site (only the distance is the nearest one). -/
theorem C6_counterexample :
    is_within_site_range (fun _ => 5) [0] 2 = (false, none, some 5) ∧
    (is_within_site_range (fun _ => 5) [0] 2).2.1 ≠ some 0 := by
  refine ⟨by decide, by decide⟩

/-- C6 (amended): the proximity check returns withinRange=true with the
first site in iteration order within the radius and that site's distance;
when no site is within the radius it returns withinRange=false with NO
site (None, not the nearest site) together with the minimum — true
nearest — distance over all sites. -/
theorem C6_amended :
    (∀ (dist : Nat → ℚ) (radius : ℚ) (pre : List Nat) (s : Nat)
        (post : List Nat),
      (∀ t ∈ pre, radius < dist t) → dist s ≤ radius →
      is_within_site_range dist (pre ++ s :: post) radius =
        (true, some s, some (dist s))) ∧
    (∀ (dist : Nat → ℚ) (radius : ℚ) (sites : List Nat),
      sites ≠ [] → (∀ t ∈ sites, radius < dist t) →
      ∃ m, is_within_site_range dist sites radius = (false, none, some m) ∧
        m ∈ sites.map dist ∧ ∀ t ∈ sites, m ≤ dist t) := by
  constructor
  · intro dist radius pre s post hpre hs
    exact siteLoop_found dist radius pre none s post hpre hs
  · intro dist radius sites hne h
    cases sites with
    | nil => exact absurd rfl hne
    | cons s rest =>
        have hrun := siteLoop_none dist radius (s :: rest) none h
        have hstep : accMin none ((s :: rest).map dist) =
            accMin (some (dist s)) (rest.map dist) := rfl
        obtain ⟨m, h1, h2, h3, h4⟩ := accMin_some_char (rest.map dist) (dist s)
        refine ⟨m, ?_, ?_, ?_⟩
        · rw [is_within_site_range, hrun, hstep, h1]
        · rcases h2 with h | h
          · simp [h]
          · simp only [List.map_cons, List.mem_cons]
            exact Or.inr h
        · intro t ht
          rcases List.mem_cons.mp ht with h | h
          · rw [h]; exact h3
          · exact h4 (dist t) (List.mem_map_of_mem dist h)

/-- C6 witness: a site at distance 1 within radius 2 is found; a lone
site at distance 5 yields false with the minimum distance 5 and no site. -/
theorem C6_witness :
    is_within_site_range (fun _ => 1) ([] ++ 0 :: []) 2 =
      (true, some 0, some 1) ∧
    (∃ m, is_within_site_range (fun _ => 5) [0] 2 = (false, none, some m) ∧
      m ∈ [0].map (fun _ => (5 : ℚ)) ∧ ∀ t ∈ [0], m ≤ (5 : ℚ)) := by
  constructor
  · exact C6_amended.1 (fun _ => 1) 2 [] 0 [] (by simp) (by norm_num)
  · exact C6_amended.2 (fun _ => 5) 2 [0] (by simp) (by intro t _; norm_num)

/-- C4: when EXIF carries no geotag, overlay OCR finds a coordinate pair,
but no datetime can be reconstructed from the extracted date/time strings,
the resolver returns latitude, longitude and timestamp all null with the
distinct failure reason TIME_PARSE_FAILED — the found coordinates are
discarded. -/
theorem C4_time_parse_failed (p : Photo) (today : Int) (la lo : ℚ)
    (hexif : p.exifGps = none)
    (hlat : (extractOverlay p.overlay).lat = some la)
    (hlon : (extractOverlay p.overlay).lon = some lo)
    (hfail : (extract_datetime_from_text_overlay p).2 = false) :
    extract_gps_and_datetime p today =
      { lat := none, lon := none, dt := none,
        address := (extractOverlay p.overlay).address,
        method := some "TIME_PARSE_FAILED" } := by
  unfold extract_gps_and_datetime
  rw [hexif]
  simp only [hlat, hlon]
  rcases he : extract_datetime_from_text_overlay p with ⟨d, b⟩
  rw [he] at hfail
  simp only at hfail
  subst hfail
  cases d <;> rfl

/-- Concrete photo for the C4 witness: no EXIF geotag, an overlay variant
with a valid coordinate pair, a date but no time string, so datetime
reconstruction fails. -/
def demoPhotoC4 : Photo :=
  { exifGps := none
    exifDt := none
    overlay := [⟨[(10, 20)], some "22/09/2025", none, some "Pune"⟩]
    strptime := fun _ _ => none }

/-- C4 witness: the resolver discards the found coordinates of
`demoPhotoC4` and reports TIME_PARSE_FAILED. -/
theorem C4_witness :
    demoPhotoC4.exifGps = none ∧
    (extractOverlay demoPhotoC4.overlay).lat = some 10 ∧
    (extractOverlay demoPhotoC4.overlay).lon = some 20 ∧
    (extract_datetime_from_text_overlay demoPhotoC4).2 = false ∧
    extract_gps_and_datetime demoPhotoC4 100 =
      { lat := none, lon := none, dt := none,
        address := (extractOverlay demoPhotoC4.overlay).address,
        method := some "TIME_PARSE_FAILED" } :=
  ⟨rfl, by decide, by decide, rfl,
    C4_time_parse_failed demoPhotoC4 100 10 20 rfl (by decide) (by decide) rfl⟩

/-- Finalizing a past-dated half-open record sets Half Day and "0:00". -/
theorem finalizeOld_half (today : Int) (a : Attendance)
    (hpast : a.date < today)
    (hhalf : (a.in_time.isSome = true ∧ a.out_time = none) ∨
      (a.out_time.isSome = true ∧ a.in_time = none)) :
    finalizeOld today a =
      { a with status := "Half Day", working_hours := some "0:00" } := by
  rcases hhalf with ⟨h1, h2⟩ | ⟨h1, h2⟩ <;>
    simp [finalizeOld, hpast, h1, h2]

/-- Finalization never changes the record's date. -/
theorem finalizeOld_date (today : Int) (a : Attendance) :
    (finalizeOld today a).date = a.date := by
  unfold finalizeOld
  split_ifs <;> rfl

/-- Finalization is idempotent on every record. -/
theorem finalizeOld_idem (today : Int) (a : Attendance) :
    finalizeOld today (finalizeOld today a) = finalizeOld today a := by
  by_cases hd : a.date < today
  · cases hin : a.in_time <;> cases hout : a.out_time <;>
      simp [finalizeOld, hd, hin, hout]
  · simp [finalizeOld, hd]

/-- A pointwise-fixed map is the identity. -/
theorem map_eq_self_of_fixed {α : Type} (f : α → α) :
    ∀ l : List α, (∀ x ∈ l, f x = x) → l.map f = l := by
  intro l
  induction l with
  | nil => intro _; rfl
  | cons b rest ih =>
      intro h
      simp only [List.map_cons]
      rw [h b (by simp), ih (fun x hx => h x (by simp [hx]))]

/-- A record not dated today survives the today-record removal. -/
theorem mem_removeFirstToday (today : Int) (x : Attendance)
    (hne : x.date ≠ today) :
    ∀ l, x ∈ l → x ∈ removeFirstToday today l := by
  intro l
  induction l with
  | nil => intro h; exact absurd h (by simp)
  | cons b rest ih =>
      intro hx
      by_cases hb : b.date = today
      · by_cases hdel : deleteTodayCond today b
        · simp only [removeFirstToday, if_pos hb, if_pos hdel]
          rcases List.mem_cons.mp hx with h | h
          · exact absurd hb (h ▸ hne)
          · exact h
        · simpa [removeFirstToday, hb, hdel] using hx
      · simp only [removeFirstToday, if_neg hb]
        rcases List.mem_cons.mp hx with h | h
        · exact h ▸ List.mem_cons_self b _
        · exact List.mem_cons_of_mem b (ih h)

/-- The today-record removal only drops elements. -/
theorem mem_of_mem_removeFirstToday (today : Int) (x : Attendance) :
    ∀ l, x ∈ removeFirstToday today l → x ∈ l := by
  intro l
  induction l with
  | nil => intro h; simp [removeFirstToday] at h
  | cons b rest ih =>
      by_cases hb : b.date = today
      · by_cases hdel : deleteTodayCond today b
        · intro h
          simp only [removeFirstToday, if_pos hb, if_pos hdel] at h
          exact List.mem_cons_of_mem b h
        · intro h
          simpa [removeFirstToday, hb, hdel] using h
      · intro h
        simp only [removeFirstToday, if_neg hb] at h
        rcases List.mem_cons.mp h with h | h
        · exact h ▸ List.mem_cons_self b _
        · exact List.mem_cons_of_mem b (ih h)

/-- With no today-dated record the removal is the identity. -/
theorem removeFirstToday_no_today (today : Int) :
    ∀ l : List Attendance, (∀ x ∈ l, ¬(x.date = today)) →
      removeFirstToday today l = l := by
  intro l
  induction l with
  | nil => intro _; rfl
  | cons b rest ih =>
      intro h
      have hb : ¬(b.date = today) := h b (by simp)
      simp only [removeFirstToday, if_neg hb]
      rw [ih (fun x hx => h x (by simp [hx]))]

/-- With at most one today-dated record the removal is idempotent. -/
theorem removeFirstToday_idem (today : Int) :
    ∀ l : List Attendance,
      l.countP (fun r => decide (r.date = today)) ≤ 1 →
      removeFirstToday today (removeFirstToday today l) =
        removeFirstToday today l := by
  intro l
  induction l with
  | nil => intro _; rfl
  | cons b rest ih =>
      intro h
      rw [List.countP_cons] at h
      by_cases hb : b.date = today
      · have hcount : rest.countP (fun r => decide (r.date = today)) = 0 := by
          simp only [hb, decide_True, if_pos] at h
          omega
        by_cases hdel : deleteTodayCond today b
        · simp only [removeFirstToday, if_pos hb, if_pos hdel]
          exact removeFirstToday_no_today today rest
            (by
              intro x hx
              have := List.countP_eq_zero.mp hcount x hx
              simpa using this)
        · simp only [removeFirstToday, if_pos hb, if_neg hdel]
      · have hcount : rest.countP (fun r => decide (r.date = today)) ≤ 1 := by
          simp only [hb, decide_False, if_neg] at h
          omega
        simp only [removeFirstToday, if_neg hb]
        rw [ih hcount]

/-- Finalization preserves the number of today-dated records. -/
theorem countP_map_finalize (today : Int) (l : List Attendance) :
    (l.map (finalizeOld today)).countP (fun r => decide (r.date = today)) =
      l.countP (fun r => decide (r.date = today)) := by
  induction l with
  | nil => rfl
  | cons b rest ih =>
      simp only [List.map_cons, List.countP_cons, ih, finalizeOld_date]

/-- C8: the per-employee Daily Sweep turns a past-dated record with
exactly one of IN/OUT populated into status "Half Day" with working hours
"0:00" and keeps it (never deletes it), and — the stored records holding at
most one today-dated row, as the (employee, date) key guarantees — a second
run of the sweep produces exactly the same final state. -/
theorem C8_sweep_idempotent (today : Int) (records : List Attendance)
    (a : Attendance) (hmem : a ∈ records) (hpast : a.date < today)
    (hhalf : (a.in_time.isSome = true ∧ a.out_time = none) ∨
      (a.out_time.isSome = true ∧ a.in_time = none))
    (huniq : records.countP (fun r => decide (r.date = today)) ≤ 1) :
    { a with status := "Half Day", working_hours := some "0:00" } ∈
      cleanup_incomplete_attendance today records ∧
    cleanup_incomplete_attendance today
        (cleanup_incomplete_attendance today records) =
      cleanup_incomplete_attendance today records := by
  constructor
  · have h1 : finalizeOld today a ∈ records.map (finalizeOld today) :=
      List.mem_map_of_mem _ hmem
    have h2 : (finalizeOld today a).date ≠ today := by
      rw [finalizeOld_date]
      omega
    have h3 := mem_removeFirstToday today _ h2 _ h1
    rw [finalizeOld_half today a hpast hhalf] at h3
    exact h3
  · unfold cleanup_incomplete_attendance
    have hfix :
        (removeFirstToday today (records.map (finalizeOld today))).map
            (finalizeOld today) =
          removeFirstToday today (records.map (finalizeOld today)) := by
      apply map_eq_self_of_fixed
      intro x hx
      have hxS := mem_of_mem_removeFirstToday today x _ hx
      obtain ⟨y, _, rfl⟩ := List.mem_map.mp hxS
      exact finalizeOld_idem today y
    rw [hfix]
    exact removeFirstToday_idem today _
      (by rw [countP_map_finalize]; exact huniq)

/-- A concrete past-dated half-open record for the C8 witness: IN at
08:10 of day 0, no OUT, swept on day 1. -/
def demoHalfOpen : Attendance := { newAttendance 1 0 with in_time := some 490 }

/-- C8 witness: one run of the sweep finalizes `demoHalfOpen` as Half Day
"0:00" and a second run changes nothing. -/
theorem C8_witness :
    demoHalfOpen ∈ [demoHalfOpen] ∧ demoHalfOpen.date < 1 ∧
    ({ demoHalfOpen with status := "Half Day", working_hours := some "0:00" } ∈
        cleanup_incomplete_attendance 1 [demoHalfOpen] ∧
      cleanup_incomplete_attendance 1
          (cleanup_incomplete_attendance 1 [demoHalfOpen]) =
        cleanup_incomplete_attendance 1 [demoHalfOpen]) :=
  ⟨by decide, by decide,
    C8_sweep_idempotent 1 [demoHalfOpen] demoHalfOpen (by decide) (by decide)
      (Or.inl (by decide)) (by decide)⟩

/-- Round-half-to-even stays within a half of its argument. -/
theorem bankerRound_abs (x : ℚ) : |(bankerRound x : ℚ) - x| ≤ 1 / 2 := by
  unfold bankerRound
  by_cases h : Int.fract x = 1 / 2
  · have hx : x = (⌊x⌋ : ℚ) + 1 / 2 := by
      have hfl := Int.floor_add_fract x
      rw [h] at hfl
      linarith
    rw [if_pos h]
    by_cases he : Even ⌊x⌋
    · rw [if_pos he, abs_le]
      constructor <;> linarith
    · rw [if_neg he, abs_le]
      push_cast
      constructor <;> linarith
  · rw [if_neg h, abs_sub_comm]
    exact abs_sub_round x

/-- The decoded DMS triple reproduces the absolute value of the encoded
coordinate within half a hundredth of a second of arc. -/
theorem dms_reconstruct_close (x : ℚ) :
    |rational_to_float (deg_to_dms_rational x) - abs x| ≤ 1 / 720000 := by
  have hval : rational_to_float (deg_to_dms_rational x) =
      (⌊|x|⌋ : ℚ) + (⌊(|x| - ⌊|x|⌋) * 60⌋ : ℚ) / 60 +
        ((bankerRound ((|x| - ⌊|x|⌋ - (⌊(|x| - ⌊|x|⌋) * 60⌋ : ℚ) / 60) *
          3600 * 100) : ℤ) : ℚ) / 360000 := by
    simp only [rational_to_float, deg_to_dms_rational]
    push_cast
    ring
  set d : ℚ := (⌊|x|⌋ : ℚ) with hd
  set m : ℚ := (⌊(|x| - d) * 60⌋ : ℚ) with hm
  set v : ℚ := (|x| - d - m / 60) * 3600 * 100 with hv
  have hdiff : rational_to_float (deg_to_dms_rational x) - |x| =
      ((bankerRound v : ℚ) - v) / 360000 := by
    rw [hval, hv]
    ring
  rw [hdiff, abs_div, abs_of_pos (by norm_num : (0 : ℚ) < 360000)]
  have hb := bankerRound_abs v
  rw [div_le_div_iff (by norm_num) (by norm_num : (0 : ℚ) < 720000)]
  nlinarith [hb]

/-- C9: for coordinates within latitude/longitude range bounds, encoding
to the EXIF rational DMS triple (hemisphere handled by the N/S and E/W
reference) and decoding with `d + m/60 + s/3600` reproduces each original
coordinate within 1e-4 degrees. -/
theorem C9_dms_roundtrip (lat lon : ℚ)
    (h1 : -90 ≤ lat) (h2 : lat ≤ 90) (h3 : -180 ≤ lon) (h4 : lon ≤ 180) :
    |exif_roundtrip lat - lat| ≤ 1 / 10000 ∧
    |exif_roundtrip lon - lon| ≤ 1 / 10000 := by
  have key : ∀ x : ℚ, |exif_roundtrip x - x| ≤ 1 / 10000 := by
    intro x
    have hc := dms_reconstruct_close x
    unfold exif_roundtrip
    by_cases hx : 0 ≤ x
    · rw [if_pos hx]
      rw [abs_of_nonneg hx] at hc
      linarith [hc, abs_nonneg (rational_to_float (deg_to_dms_rational x) - x)]
    · rw [if_neg hx]
      rw [abs_of_neg (lt_of_not_le hx)] at hc
      have heq : -rational_to_float (deg_to_dms_rational x) - x =
          -(rational_to_float (deg_to_dms_rational x) - -x) := by ring
      rw [heq, abs_neg]
      linarith [hc]
  exact ⟨key lat, key lon⟩

/-- C9 witness: the round trip at (lat, lon) = (45/2, -179/3) stays
within 1e-4 of the originals. -/
theorem C9_witness :
    (-90 ≤ (45 : ℚ) / 2 ∧ (45 : ℚ) / 2 ≤ 90 ∧
      -180 ≤ (-179 : ℚ) / 3 ∧ (-179 : ℚ) / 3 ≤ 180) ∧
    |exif_roundtrip ((45 : ℚ) / 2) - (45 : ℚ) / 2| ≤ 1 / 10000 ∧
    |exif_roundtrip ((-179 : ℚ) / 3) - (-179 : ℚ) / 3| ≤ 1 / 10000 :=
  ⟨⟨by norm_num, by norm_num, by norm_num, by norm_num⟩,
    C9_dms_roundtrip ((45 : ℚ) / 2) ((-179 : ℚ) / 3)
      (by norm_num) (by norm_num) (by norm_num) (by norm_num)⟩
